import Mathlib

/-!
Verification of the rzw Z-Wave serial driver against its specification.

This file gives a shallow embedding of the parts of the rzw repository that
the verified properties are about:

* the serial frame codec (`SerialMsg.parse`, `SerialMsg.get_command`,
  `SerialMsg.checksum` from `src/driver/serial.rs`),
* the driver transaction layer (`read_single_msg`, `read_all_msg`, `write`,
  `get_next_msg_id`, `get_node_ids` from `src/driver/serial.rs`),
* the meter command-class codec (`Meter::report`, `Meter::calc_value`,
  `Meter::get_precision_scale_size`, `Meter::to_meter_data` from
  `src/cmds/meter.rs`).

Bytes are modelled as `Nat`; every place where Rust performs a truncating
`as u8` cast or wrapping arithmetic carries an explicit `% 256` (or `% 2 ^ w`).
Rust's `f64` values computed by the meter codec are modelled exactly by `ℚ`:
the only operations performed are exact integer-to-float conversions
(|value| < 2^53) and a single division, and two `f64` expressions denoting the
same rational are the same float, so rational equalities mirror `f64`
equalities in the source and its unit tests.

The serial port is modelled as a scripted event list: `some b` delivers the
byte `b`, `none` is one read timeout.  Written bytes are appended to an
`output` trace.  Rust panics (out-of-bounds indexing) are modelled by the
explicit result `DRes.panicked`.
-/

namespace Rzw

/-- Decidable equality for `Except`, used to evaluate parse results on
concrete inputs. -/
instance {ε α : Type} [DecidableEq ε] [DecidableEq α] :
    DecidableEq (Except ε α) := fun x y =>
  match x, y with
  | .ok a, .ok b =>
    if h : a = b then .isTrue (by rw [h]) else .isFalse (by simp [h])
  | .error a, .error b =>
    if h : a = b then .isTrue (by rw [h]) else .isFalse (by simp [h])
  | .ok _, .error _ => .isFalse (by simp)
  | .error _, .ok _ => .isFalse (by simp)

/-- Error kinds of `src/error.rs` that the verified code paths can produce
(messages are dropped; `Io` carries the `std::io::ErrorKind`). -/
inductive IoErrKind where
  | TimedOut
  | InvalidData
  | Other
deriving DecidableEq, Repr

/-- The `ErrorKind` cases reachable from the embedded code. -/
inductive ErrorKind where
  | UnknownZWave
  | Io (k : IoErrKind)
deriving DecidableEq, Repr

/-- `SerialMsgHeader` from `src/driver/serial.rs`. -/
inductive SerialMsgHeader where
  | SOF  -- 0x01, start of frame
  | ACK  -- 0x06, message accepted
  | NAK  -- 0x15, message not accepted
  | CAN  -- 0x18, resend request
deriving DecidableEq, Repr

namespace SerialMsgHeader

/-- Discriminant value of the header (the `as u8` cast). -/
def toU8 : SerialMsgHeader → Nat
  | .SOF => 0x01
  | .ACK => 0x06
  | .NAK => 0x15
  | .CAN => 0x18

/-- `SerialMsgHeader::from_u8` (via `enum_from_primitive!`). -/
def from_u8 (b : Nat) : Option SerialMsgHeader :=
  if b = 0x01 then some .SOF
  else if b = 0x06 then some .ACK
  else if b = 0x15 then some .NAK
  else if b = 0x18 then some .CAN
  else none

end SerialMsgHeader

/-- `SerialMsgType` from `src/driver/serial.rs`. -/
inductive SerialMsgType where
  | Request   -- 0x00
  | Response  -- 0x01
deriving DecidableEq, Repr

namespace SerialMsgType

/-- Discriminant value. -/
def toU8 : SerialMsgType → Nat
  | .Request => 0x00
  | .Response => 0x01

/-- `SerialMsgType::from_u8`. -/
def from_u8 (b : Nat) : Option SerialMsgType :=
  if b = 0x00 then some .Request
  else if b = 0x01 then some .Response
  else none

end SerialMsgType

/-- `SerialTransmissionType` from `src/driver/serial.rs`. -/
inductive SerialTransmissionType where
  | ACK        -- 0x01
  | LowPower   -- 0x02
  | AutoRoute  -- 0x04
  | Explore    -- 0x20
  | Direct     -- 0x25
deriving DecidableEq, Repr

/-- Discriminant value. -/
def SerialTransmissionType.toU8 : SerialTransmissionType → Nat
  | .ACK => 0x01
  | .LowPower => 0x02
  | .AutoRoute => 0x04
  | .Explore => 0x20
  | .Direct => 0x25

/-- `SerialMsgFunction` from `src/driver/serial.rs`: the table of ZWave
function opcodes. -/
inductive SerialMsgFunction where
  | None
  | DiscoveryNodes
  | SerialApiApplNodeInformation
  | ApplicationCommandHandler
  | GetControllerCapabilities
  | SerialApiSetTimeouts
  | SerialGetCapabilities
  | SerialApiSoftReset
  | SetRFReceiveMode
  | SetSleepMode
  | SendNodeInformation
  | SendData
  | SendDataMulti
  | GetVersion
  | SendDataAbort
  | RFPowerLevelSet
  | SendDataMeta
  | MemoryGetId
  | MemoryGetByte
  | MemoryPutByte
  | MemoryGetBuffer
  | MemoryPutBuffer
  | ClockSet
  | ClockGet
  | ClockCompare
  | RtcTimerCreate
  | RtcTimerRead
  | RtcTimerDelete
  | RtcTimerCall
  | GetNodeProtocolInfo
  | SetDefault
  | ReplicationCommandComplete
  | ReplicationSendData
  | AssignReturnRoute
  | DeleteReturnRoute
  | RequestNodeNeighborUpdate
  | ApplicationUpdate
  | AddNodeToNetwork
  | RemoveNodeFromNetwork
  | CreateNewPrimary
  | ControllerChange
  | SetLearnMode
  | AssignSucReturnRoute
  | EnableSuc
  | RequestNetworkUpdate
  | SetSucNodeId
  | DeleteSucReturnRoute
  | GetSucNodeId
  | SendSucId
  | RediscoveryNeeded
  | RequestNodeInfo
  | RemoveFailedNodeId
  | IsFailedNode
  | ReplaceFailedNode
  | TimerStart
  | TimerRestart
  | TimerCancel
  | TimerCall
  | GetRoutingTableLine
  | GetTXCounter
  | ResetTXCounter
  | StoreNodeInfo
  | StoreHomeId
  | LockRouteResponse
  | SendDataRouteDemo
  | SerialApiTest
  | SerialApiSlaveNodeInfo
  | ApplicationSlaveCommandHandler
  | SendSlaveNodeInfo
  | SendSlaveData
  | SetSlaveLearnMode
  | GetVirtualNodes
  | IsVirtualNode
  | SetPromiscuousMode
deriving DecidableEq, Repr

namespace SerialMsgFunction

/-- Discriminant value of each ZWave function opcode. -/
def toU8 : SerialMsgFunction → Nat
  | .None => 0x00
  | .DiscoveryNodes => 0x02
  | .SerialApiApplNodeInformation => 0x03
  | .ApplicationCommandHandler => 0x04
  | .GetControllerCapabilities => 0x05
  | .SerialApiSetTimeouts => 0x06
  | .SerialGetCapabilities => 0x07
  | .SerialApiSoftReset => 0x08
  | .SetRFReceiveMode => 0x10
  | .SetSleepMode => 0x11
  | .SendNodeInformation => 0x12
  | .SendData => 0x13
  | .SendDataMulti => 0x14
  | .GetVersion => 0x15
  | .SendDataAbort => 0x16
  | .RFPowerLevelSet => 0x17
  | .SendDataMeta => 0x18
  | .MemoryGetId => 0x20
  | .MemoryGetByte => 0x21
  | .MemoryPutByte => 0x22
  | .MemoryGetBuffer => 0x23
  | .MemoryPutBuffer => 0x24
  | .ClockSet => 0x30
  | .ClockGet => 0x31
  | .ClockCompare => 0x32
  | .RtcTimerCreate => 0x33
  | .RtcTimerRead => 0x34
  | .RtcTimerDelete => 0x35
  | .RtcTimerCall => 0x36
  | .GetNodeProtocolInfo => 0x41
  | .SetDefault => 0x42
  | .ReplicationCommandComplete => 0x44
  | .ReplicationSendData => 0x45
  | .AssignReturnRoute => 0x46
  | .DeleteReturnRoute => 0x47
  | .RequestNodeNeighborUpdate => 0x48
  | .ApplicationUpdate => 0x49
  | .AddNodeToNetwork => 0x4a
  | .RemoveNodeFromNetwork => 0x4b
  | .CreateNewPrimary => 0x4c
  | .ControllerChange => 0x4d
  | .SetLearnMode => 0x50
  | .AssignSucReturnRoute => 0x51
  | .EnableSuc => 0x52
  | .RequestNetworkUpdate => 0x53
  | .SetSucNodeId => 0x54
  | .DeleteSucReturnRoute => 0x55
  | .GetSucNodeId => 0x56
  | .SendSucId => 0x57
  | .RediscoveryNeeded => 0x59
  | .RequestNodeInfo => 0x60
  | .RemoveFailedNodeId => 0x61
  | .IsFailedNode => 0x62
  | .ReplaceFailedNode => 0x63
  | .TimerStart => 0x70
  | .TimerRestart => 0x71
  | .TimerCancel => 0x72
  | .TimerCall => 0x73
  | .GetRoutingTableLine => 0x80
  | .GetTXCounter => 0x81
  | .ResetTXCounter => 0x82
  | .StoreNodeInfo => 0x83
  | .StoreHomeId => 0x84
  | .LockRouteResponse => 0x90
  | .SendDataRouteDemo => 0x91
  | .SerialApiTest => 0x95
  | .SerialApiSlaveNodeInfo => 0xa0
  | .ApplicationSlaveCommandHandler => 0xa1
  | .SendSlaveNodeInfo => 0xa2
  | .SendSlaveData => 0xa3
  | .SetSlaveLearnMode => 0xa4
  | .GetVirtualNodes => 0xa5
  | .IsVirtualNode => 0xa6
  | .SetPromiscuousMode => 0xd0

/-- `SerialMsgFunction::from_u8` (via `enum_from_primitive!`). -/
def from_u8 (b : Nat) : Option SerialMsgFunction :=
  if b = 0x00 then some .None
  else if b = 0x02 then some .DiscoveryNodes
  else if b = 0x03 then some .SerialApiApplNodeInformation
  else if b = 0x04 then some .ApplicationCommandHandler
  else if b = 0x05 then some .GetControllerCapabilities
  else if b = 0x06 then some .SerialApiSetTimeouts
  else if b = 0x07 then some .SerialGetCapabilities
  else if b = 0x08 then some .SerialApiSoftReset
  else if b = 0x10 then some .SetRFReceiveMode
  else if b = 0x11 then some .SetSleepMode
  else if b = 0x12 then some .SendNodeInformation
  else if b = 0x13 then some .SendData
  else if b = 0x14 then some .SendDataMulti
  else if b = 0x15 then some .GetVersion
  else if b = 0x16 then some .SendDataAbort
  else if b = 0x17 then some .RFPowerLevelSet
  else if b = 0x18 then some .SendDataMeta
  else if b = 0x20 then some .MemoryGetId
  else if b = 0x21 then some .MemoryGetByte
  else if b = 0x22 then some .MemoryPutByte
  else if b = 0x23 then some .MemoryGetBuffer
  else if b = 0x24 then some .MemoryPutBuffer
  else if b = 0x30 then some .ClockSet
  else if b = 0x31 then some .ClockGet
  else if b = 0x32 then some .ClockCompare
  else if b = 0x33 then some .RtcTimerCreate
  else if b = 0x34 then some .RtcTimerRead
  else if b = 0x35 then some .RtcTimerDelete
  else if b = 0x36 then some .RtcTimerCall
  else if b = 0x41 then some .GetNodeProtocolInfo
  else if b = 0x42 then some .SetDefault
  else if b = 0x44 then some .ReplicationCommandComplete
  else if b = 0x45 then some .ReplicationSendData
  else if b = 0x46 then some .AssignReturnRoute
  else if b = 0x47 then some .DeleteReturnRoute
  else if b = 0x48 then some .RequestNodeNeighborUpdate
  else if b = 0x49 then some .ApplicationUpdate
  else if b = 0x4a then some .AddNodeToNetwork
  else if b = 0x4b then some .RemoveNodeFromNetwork
  else if b = 0x4c then some .CreateNewPrimary
  else if b = 0x4d then some .ControllerChange
  else if b = 0x50 then some .SetLearnMode
  else if b = 0x51 then some .AssignSucReturnRoute
  else if b = 0x52 then some .EnableSuc
  else if b = 0x53 then some .RequestNetworkUpdate
  else if b = 0x54 then some .SetSucNodeId
  else if b = 0x55 then some .DeleteSucReturnRoute
  else if b = 0x56 then some .GetSucNodeId
  else if b = 0x57 then some .SendSucId
  else if b = 0x59 then some .RediscoveryNeeded
  else if b = 0x60 then some .RequestNodeInfo
  else if b = 0x61 then some .RemoveFailedNodeId
  else if b = 0x62 then some .IsFailedNode
  else if b = 0x63 then some .ReplaceFailedNode
  else if b = 0x70 then some .TimerStart
  else if b = 0x71 then some .TimerRestart
  else if b = 0x72 then some .TimerCancel
  else if b = 0x73 then some .TimerCall
  else if b = 0x80 then some .GetRoutingTableLine
  else if b = 0x81 then some .GetTXCounter
  else if b = 0x82 then some .ResetTXCounter
  else if b = 0x83 then some .StoreNodeInfo
  else if b = 0x84 then some .StoreHomeId
  else if b = 0x90 then some .LockRouteResponse
  else if b = 0x91 then some .SendDataRouteDemo
  else if b = 0x95 then some .SerialApiTest
  else if b = 0xa0 then some .SerialApiSlaveNodeInfo
  else if b = 0xa1 then some .ApplicationSlaveCommandHandler
  else if b = 0xa2 then some .SendSlaveNodeInfo
  else if b = 0xa3 then some .SendSlaveData
  else if b = 0xa4 then some .SetSlaveLearnMode
  else if b = 0xa5 then some .GetVirtualNodes
  else if b = 0xa6 then some .IsVirtualNode
  else if b = 0xd0 then some .SetPromiscuousMode
  else none

end SerialMsgFunction

/-- `SerialMsg` from `src/driver/serial.rs`: a decoded serial frame. -/
structure SerialMsg where
  header : SerialMsgHeader
  typ : SerialMsgType
  func : SerialMsgFunction
  data : List Nat
deriving DecidableEq, Repr

namespace SerialMsg

/-- `SerialMsg::new`: a SOF frame with the given type, function and payload. -/
def new (typ : SerialMsgType) (func : SerialMsgFunction) (data : List Nat) :
    SerialMsg :=
  { header := .SOF, typ := typ, func := func, data := data }

/-- `SerialMsg::new_header`: a header-only frame. -/
def new_header (header : SerialMsgHeader) : SerialMsg :=
  { header := header, typ := .Response, func := .None, data := [] }

/-- `SerialMsg::checksum`: XOR of `data[1..]`, seeded with `0xFF`
(the byte at index 0 — the SOF header — is skipped). -/
def checksum (data : List Nat) : Nat :=
  (data.drop 1).foldl (fun ret b => ret ^^^ b) 0xFF

/-- `SerialMsg::parse`: decode a byte slice into a frame. -/
def parse (data : List Nat) : Except ErrorKind SerialMsg :=
  if data.length < 1 then .error .UnknownZWave
  else
    match SerialMsgHeader.from_u8 (data.getD 0 0) with
    | none => .error .UnknownZWave
    | some header =>
      if header ≠ .SOF then .ok (new_header header)
      else if data.length < 5 then .error .UnknownZWave
      else if data.getD 1 0 ≠ (data.length - 2) % 256 then .error .UnknownZWave
      else if checksum (data.take (data.length - 1)) ≠
          data.getD (data.length - 1) 0 then .error .UnknownZWave
      else
        match SerialMsgType.from_u8 (data.getD 2 0) with
        | none => .error .UnknownZWave
        | some typ =>
          match SerialMsgFunction.from_u8 (data.getD 3 0) with
          | none => .error .UnknownZWave
          | some func =>
            let msg_data :=
              if data.length > 5 then (data.drop 4).take (data.length - 5)
              else []
            .ok (new typ func msg_data)

/-- `SerialMsg::get_command`: encode the frame to its on-wire bytes. -/
def get_command (m : SerialMsg) : List Nat :=
  if m.header ≠ .SOF then [m.header.toU8]
  else
    let buf := [m.header.toU8, (m.data.length + 3) % 256, m.typ.toU8,
      m.func.toU8] ++ m.data
    buf ++ [checksum buf]

end SerialMsg

/-- Outcome of a driver operation.  `panicked` models a Rust panic
(out-of-bounds indexing); `fuelOut` is the bottom of the bounded unfolding of
the `read_all_msg` loop and is unreachable for the fuel chosen by
`SerialDriver.read_all_msg` (the loop consumes at least one input event per
iteration). -/
inductive DRes (α : Type) where
  | ok (a : α)
  | err (e : ErrorKind)
  | panicked
  | fuelOut
deriving DecidableEq, Repr

/-- The observable state of a `SerialDriver`: the message-id counter, the
queue of stored messages, and the serial port modelled as a script of read
events (`some b` delivers byte `b`, `none` is one read timeout) plus the
trace of written bytes. -/
structure DriverState where
  message_id : Nat
  messages : List SerialMsg
  input : List (Option Nat)
  output : List Nat
deriving DecidableEq, Repr

namespace SerialDriver

/-- One `self.port.read(&mut buf)` of a single byte: consumes the next input
event; an empty script or a `none` event is a timeout. -/
def portRead (s : DriverState) : Option Nat × DriverState :=
  match s.input with
  | [] => (none, s)
  | e :: rest => (e, { s with input := rest })

/-- `self.port.write(..)`: appends the bytes to the written trace. -/
def portWrite (s : DriverState) (bytes : List Nat) : DriverState :=
  { s with output := s.output ++ bytes }

/-- Read `n` single bytes in sequence (the `for _ in 0..len` loop of
`read_single_msg`); a timeout aborts the whole read. -/
def readN : Nat → DriverState → Option (List Nat) × DriverState
  | 0, s => (some [], s)
  | n + 1, s =>
    match portRead s with
    | (none, s) => (none, s)
    | (some b, s) =>
      match readN n s with
      | (none, s) => (none, s)
      | (some bs, s) => (some (b :: bs), s)

/-- `SerialDriver::get_next_msg_id`: increment the u8 counter (wrapping) and
skip the reserved id 0; returns the new id and the updated state. -/
def get_next_msg_id (s : DriverState) : Nat × DriverState :=
  let id := (s.message_id + 1) % 256
  let id := if id = 0 then id + 1 else id
  (id, { s with message_id := id })

/-- `SerialDriver::read_single_msg`: read one frame from the port.  A SOF
header is followed by a length byte and that many further bytes, which are
parsed; an ACK (resp. NAK) is written back on success (resp. failure).
ACK/NAK/CAN headers yield header-only frames; an unknown header is an
`UnknownZWave` error. -/
def read_single_msg (s : DriverState) : DRes SerialMsg × DriverState :=
  match portRead s with
  | (none, s) => (.err (.Io .TimedOut), s)
  | (some b, s) =>
    if b = SerialMsgHeader.SOF.toU8 then
      match portRead s with
      | (none, s) => (.err (.Io .TimedOut), s)
      | (some len, s) =>
        match readN len s with
        | (none, s) => (.err (.Io .TimedOut), s)
        | (some bytes, s) =>
          let result := SerialMsgHeader.SOF.toU8 :: len :: bytes
          match SerialMsg.parse result with
          | .ok m =>
            (.ok m, portWrite s (SerialMsg.new_header .ACK).get_command)
          | .error e =>
            (.err e, portWrite s (SerialMsg.new_header .NAK).get_command)
    else if b = SerialMsgHeader.ACK.toU8 then
      (.ok (SerialMsg.new_header .ACK), s)
    else if b = SerialMsgHeader.NAK.toU8 then
      (.ok (SerialMsg.new_header .NAK), s)
    else if b = SerialMsgHeader.CAN.toU8 then
      (.ok (SerialMsg.new_header .CAN), s)
    else (.err .UnknownZWave, s)

/-- `SerialDriver::read_single_msg_rty`: retry `read_single_msg` on timeout,
up to `tries` attempts. -/
def read_single_msg_rty : Nat → DriverState → DRes SerialMsg × DriverState
  | 0, s => (.err (.Io .TimedOut), s)
  | tries + 1, s =>
    match read_single_msg s with
    | (.err e, s) =>
      if e = .Io .TimedOut then read_single_msg_rty tries s else (.err e, s)
    | (r, s) => (r, s)

/-- The body of the `SerialDriver::read_all_msg` loop, unfolded at most
`fuel` times.  Each iteration reads one message with 3 tries; a timeout ends
the drain successfully, other errors propagate.  A received SOF Request
SendData frame is tested against `data[1] == 0 && data[2] == 0` — an
out-of-bounds index there is a panic — and skipped if the test holds;
otherwise any SOF frame with at least one payload byte is pushed onto the
message queue. -/
def read_all_msg_loop : Nat → DriverState → DRes Unit × DriverState
  | 0, s => (.fuelOut, s)
  | fuel + 1, s =>
    match read_single_msg_rty 3 s with
    | (.err e, s) =>
      if e = .Io .TimedOut then (.ok (), s) else (.err e, s)
    | (.panicked, s) => (.panicked, s)
    | (.fuelOut, s) => (.fuelOut, s)
    | (.ok m, s) =>
      if m.header = .SOF ∧ m.typ = .Request ∧ m.func = .SendData then
        if m.data.length ≤ 1 then (.panicked, s)
        else if m.data.getD 1 0 = 0 then
          if m.data.length ≤ 2 then (.panicked, s)
          else if m.data.getD 2 0 = 0 then read_all_msg_loop fuel s
          else read_all_msg_loop fuel (store m s)
        else read_all_msg_loop fuel (store m s)
      else read_all_msg_loop fuel (store m s)
where
  /-- The conditional `messages.push` at the end of one loop iteration. -/
  store (m : SerialMsg) (s : DriverState) : DriverState :=
    if m.header = .SOF ∧ 1 ≤ m.data.length then
      { s with messages := s.messages ++ [m] }
    else s

/-- `SerialDriver::read_all_msg`.  The source loop terminates because every
iteration that continues has consumed at least one input event, so
`input.length + 1` loop unfoldings always suffice. -/
def read_all_msg (s : DriverState) : DRes Unit × DriverState :=
  read_all_msg_loop (s.input.length + 1) s

/-- `Driver::write for SerialDriver`: drain the pipe, append the transmission
type and a fresh message id, send the SOF Request SendData frame, then expect
an ACK header and a SOF Response SendData frame with payload `[0x01]`. -/
def write (s : DriverState) (message : List Nat) : DRes Nat × DriverState :=
  match read_all_msg s with
  | (.err e, s) => (.err e, s)
  | (.panicked, s) => (.panicked, s)
  | (.fuelOut, s) => (.fuelOut, s)
  | (.ok _, s) =>
    let message := message ++ [SerialTransmissionType.AutoRoute.toU8]
    let (m_id, s) := get_next_msg_id s
    let message := message ++ [m_id]
    let msg := SerialMsg.new .Request .SendData message
    let s := portWrite s msg.get_command
    match read_single_msg_rty 10 s with
    | (.err e, s) => (.err e, s)
    | (.panicked, s) => (.panicked, s)
    | (.fuelOut, s) => (.fuelOut, s)
    | (.ok m, s) =>
      if m.header ≠ .ACK then (.err (.Io .InvalidData), s)
      else
        match read_single_msg_rty 10 s with
        | (.err e, s) => (.err e, s)
        | (.panicked, s) => (.panicked, s)
        | (.fuelOut, s) => (.fuelOut, s)
        | (.ok m, s) =>
          if m.header ≠ .SOF ∨ m.typ ≠ .Response ∨ m.func ≠ .SendData ∨
              m.data ≠ [0x01] then
            (.err (.Io .InvalidData), s)
          else (.ok m_id, s)

/-- `SerialDriver::get_bit_at`: test bit `n` of a byte (`false` for `n ≥ 8`). -/
def get_bit_at (input : Nat) (n : Nat) : Bool :=
  if n < 8 then input &&& (1 <<< n) ≠ 0 else false

/-- The bitmap decoding loop of `Driver::get_node_ids`: `for i in 3..31`
(i.e. `i = 3, …, 30`) and `for j in 0..7` (i.e. `j = 0, …, 6` — bit 7 is
never inspected), pushing `((i - 3) * 8) + (j + 1)` for every set bit. -/
def collect_nodes (data : List Nat) : List Nat :=
  (List.range' 3 28).foldl
    (fun nodes i =>
      (List.range 7).foldl
        (fun nodes j =>
          if get_bit_at (data.getD i 0) j then
            nodes ++ [(i - 3) * 8 + (j + 1)]
          else nodes)
        nodes)
    []

/-- `Driver::get_node_ids for SerialDriver`: drain the pipe, send a
DiscoveryNodes Request, expect an ACK header, read the reply, check the
payload is 34 bytes with `data[2] == 0x1D`, and decode the bitmap. -/
def get_node_ids (s : DriverState) : DRes (List Nat) × DriverState :=
  match read_all_msg s with
  | (.err e, s) => (.err e, s)
  | (.panicked, s) => (.panicked, s)
  | (.fuelOut, s) => (.fuelOut, s)
  | (.ok _, s) =>
    let msg := SerialMsg.new .Request .DiscoveryNodes []
    let s := portWrite s msg.get_command
    match read_single_msg_rty 5 s with
    | (.err e, s) => (.err e, s)
    | (.panicked, s) => (.panicked, s)
    | (.fuelOut, s) => (.fuelOut, s)
    | (.ok m, s) =>
      if m.header ≠ .ACK then (.err (.Io .InvalidData), s)
      else
        match read_single_msg_rty 10 s with
        | (.err e, s) => (.err e, s)
        | (.panicked, s) => (.panicked, s)
        | (.fuelOut, s) => (.fuelOut, s)
        | (.ok msg2, s) =>
          let data := msg2.data
          if data.length ≠ 34 ∨ data.getD 2 0 ≠ 0x1D then
            (.err .UnknownZWave, s)
          else (.ok (collect_nodes data), s)

end SerialDriver

/-- `CommandClass::METER` from `src/defs.rs` (only the byte value of the
METER class is needed here). -/
def CommandClass.METER : Nat := 0x32

/-- `MeterType` from `src/cmds/meter.rs`. -/
inductive MeterType where
  | Electric  -- 0x01
  | Gas       -- 0x02
  | Water     -- 0x03
deriving DecidableEq, Repr

/-- `MeterType::from_u8`. -/
def MeterType.from_u8 (b : Nat) : Option MeterType :=
  if b = 0x01 then some .Electric
  else if b = 0x02 then some .Gas
  else if b = 0x03 then some .Water
  else none

/-- `ElectricMeter` scale codes from `src/cmds/meter.rs`. -/
def ElectricMeter.kWh : Nat := 0x00
/-- `ElectricMeter::kVAh`. -/
def ElectricMeter.kVAh : Nat := 0x01
/-- `ElectricMeter::W`. -/
def ElectricMeter.W : Nat := 0x02
/-- `ElectricMeter::PulseCount`. -/
def ElectricMeter.PulseCount : Nat := 0x03

/-- `GasMeter` scale codes from `src/cmds/meter.rs`. -/
def GasMeter.CubicMeters : Nat := 0x00
/-- `GasMeter::CubicFeet`. -/
def GasMeter.CubicFeet : Nat := 0x01
/-- `GasMeter::PulseCount`. -/
def GasMeter.PulseCount : Nat := 0x03

/-- `WaterMeter` scale codes from `src/cmds/meter.rs`. -/
def WaterMeter.CubicMeters : Nat := 0x00
/-- `WaterMeter::CubicFeet`. -/
def WaterMeter.CubicFeet : Nat := 0x01
/-- `WaterMeter::USGallons`. -/
def WaterMeter.USGallons : Nat := 0x02
/-- `WaterMeter::PulseCount`. -/
def WaterMeter.PulseCount : Nat := 0x03

/-- `MeterData` from `src/defs.rs`: a tagged meter reading.  The `f64` value
is modelled exactly by `ℚ` (the meter decoder only converts integers below
`2^53` and divides once, so equal rationals correspond to equal floats). -/
inductive MeterData where
  | Electric_kWh (v : ℚ)
  | Electric_kVAh (v : ℚ)
  | Electric_W (v : ℚ)
  | Electric_PulseCount (v : ℚ)
  | Gas_meter2 (v : ℚ)
  | Gas_feet2 (v : ℚ)
  | Gas_PulseCount (v : ℚ)
  | Water_meter2 (v : ℚ)
  | Water_feet2 (v : ℚ)
  | Water_Gallons (v : ℚ)
  | Water_PulseCount (v : ℚ)
deriving DecidableEq, Repr

/-- The numeric value carried by a `MeterData` reading. -/
def MeterData.value : MeterData → ℚ
  | .Electric_kWh v => v
  | .Electric_kVAh v => v
  | .Electric_W v => v
  | .Electric_PulseCount v => v
  | .Gas_meter2 v => v
  | .Gas_feet2 v => v
  | .Gas_PulseCount v => v
  | .Water_meter2 v => v
  | .Water_feet2 v => v
  | .Water_Gallons v => v
  | .Water_PulseCount v => v

/-- Two's-complement reinterpretation of the low `w` bits of `v` as a signed
integer (Rust's `as i8` / wrapping `i16`/`i32` bit patterns). -/
def asSigned (w : Nat) (v : Nat) : Int :=
  if v % 2 ^ w < 2 ^ (w - 1) then (v % 2 ^ w : Nat)
  else (v % 2 ^ w : Nat) - 2 ^ w

namespace Meter

/-- `Meter::get_precision_scale_size`: unpack the `pppssSSS` byte into
(precision, scale, size). -/
def get_precision_scale_size (input : Nat) : Nat × Nat × Nat :=
  (input >>> 5, (input >>> 3) &&& 0b00000011, input &&& 0b00000111)

/-- `Meter::calc_value`: decode 1, 2 or 4 bytes as a big-endian
two's-complement integer and divide by `10^precision`; any other byte count
yields `0.0`.  The shifts and ors mirror the source's `i8`/`i16`/`i32`
arithmetic (which wraps), composed with a final signed reinterpretation. -/
def calc_value (bytes : List Nat) (precision : Nat) : ℚ :=
  let p : ℚ := ((10 : Nat) ^ precision : Nat)
  if bytes.length = 1 then
    (asSigned 8 (bytes.getD 0 0) : ℚ) / p
  else if bytes.length = 2 then
    (asSigned 16 ((bytes.getD 0 0 <<< 8) ||| bytes.getD 1 0) : ℚ) / p
  else if bytes.length = 4 then
    (asSigned 32 ((bytes.getD 0 0 <<< 24) ||| (bytes.getD 1 0 <<< 16) |||
      (bytes.getD 2 0 <<< 8) ||| bytes.getD 3 0) : ℚ) / p
  else 0

/-- `Meter::to_meter_data`: tag the value with the (meter type, scale) unit;
unknown combinations are an `UnknownZWave` error. -/
def to_meter_data (data : ℚ) (typ : MeterType) (scale : Nat) :
    Except ErrorKind MeterData :=
  if typ = .Electric ∧ scale = ElectricMeter.kWh then
    .ok (.Electric_kWh data)
  else if typ = .Electric ∧ scale = ElectricMeter.kVAh then
    .ok (.Electric_kVAh data)
  else if typ = .Electric ∧ scale = ElectricMeter.W then
    .ok (.Electric_W data)
  else if typ = .Electric ∧ scale = ElectricMeter.PulseCount then
    .ok (.Electric_PulseCount data)
  else if typ = .Gas ∧ scale = GasMeter.CubicMeters then
    .ok (.Gas_meter2 data)
  else if typ = .Gas ∧ scale = GasMeter.CubicFeet then
    .ok (.Gas_feet2 data)
  else if typ = .Gas ∧ scale = GasMeter.PulseCount then
    .ok (.Gas_PulseCount data)
  else if typ = .Water ∧ scale = WaterMeter.CubicMeters then
    .ok (.Water_meter2 data)
  else if typ = .Water ∧ scale = WaterMeter.CubicFeet then
    .ok (.Water_feet2 data)
  else if typ = .Water ∧ scale = WaterMeter.USGallons then
    .ok (.Water_Gallons data)
  else if typ = .Water ∧ scale = WaterMeter.PulseCount then
    .ok (.Water_PulseCount data)
  else .error .UnknownZWave

/-- `Meter::report`: decode a v1 meter report payload. -/
def report (msg : List Nat) : Except ErrorKind MeterData :=
  if msg.length < 8 then .error .UnknownZWave
  else if msg.getD 3 0 ≠ CommandClass.METER ∨ msg.getD 4 0 ≠ 0x02 then
    .error .UnknownZWave
  else
    match MeterType.from_u8 (msg.getD 5 0) with
    | none => .error .UnknownZWave
    | some typ =>
      let psz := get_precision_scale_size (msg.getD 6 0)
      let precision := psz.1
      let scale := psz.2.1
      let size := psz.2.2
      if msg.length ≠ 7 + size then .error .UnknownZWave
      else
        let value := calc_value ((msg.drop 7).take size) precision
        to_meter_data value typ scale

end Meter

/-! ## Specification-side definitions

These restate, in the words of the specification and of the claims, what the
code above is supposed to compute; they are compared with the source-derived
definitions in the theorems below. -/

/-- Spec-side meter value: read the bytes big-endian as an unsigned integer,
reinterpret as a two's-complement signed integer of `8·size` bits, divide by
`10^precision`. -/
def meterValueSpec (bytes : List Nat) (precision : Nat) : ℚ :=
  let u : Nat := bytes.foldl (fun a b => a * 256 + b) 0
  let n := 8 * bytes.length
  let v : Int := if u < 2 ^ (n - 1) then (u : Int) else (u : Int) - (2 : Int) ^ n
  (v : ℚ) / ((10 : Nat) ^ precision : Nat)

/-- The frames that one iteration of the `read_all_msg` loop actually keeps:
a SOF frame with at least one payload byte that is not a Request SendData
frame with `data[1] == 0 && data[2] == 0`. -/
def keepFrame (m : SerialMsg) : Bool :=
  if m.header = .SOF ∧ m.typ = .Request ∧ m.func = .SendData ∧
      m.data.getD 1 0 = 0 ∧ m.data.getD 2 0 = 0 then false
  else decide (m.header = .SOF ∧ 1 ≤ m.data.length)

/-- The frames on which the `read_all_msg` loop body panics: a SOF Request
SendData frame whose payload is too short for the `data[1]`/`data[2]`
indexing. -/
def panicsOn (m : SerialMsg) : Prop :=
  m.header = .SOF ∧ m.typ = .Request ∧ m.func = .SendData ∧
    (m.data.length ≤ 1 ∨ (m.data.getD 1 0 = 0 ∧ m.data.length ≤ 2))

instance (m : SerialMsg) : Decidable (panicsOn m) := by
  unfold panicsOn
  infer_instance

end Rzw

/-! ## Theorems: the frame codec -/

namespace Rzw

theorem header_from_u8_toU8 (h : SerialMsgHeader) :
    SerialMsgHeader.from_u8 h.toU8 = some h := by
  cases h <;> rfl

theorem msg_type_from_u8_toU8 (t : SerialMsgType) :
    SerialMsgType.from_u8 t.toU8 = some t := by
  cases t <;> rfl

theorem function_from_u8_toU8 (f : SerialMsgFunction) :
    SerialMsgFunction.from_u8 f.toU8 = some f := by
  cases f <;> rfl

namespace SerialMsg

theorem get_command_new (t : SerialMsgType) (f : SerialMsgFunction)
    (payload : List Nat) :
    (new t f payload).get_command =
      (0x01 :: (payload.length + 3) % 256 :: t.toU8 :: f.toU8 :: payload) ++
        [checksum (0x01 :: (payload.length + 3) % 256 :: t.toU8 :: f.toU8 ::
          payload)] := by
  simp [get_command, new, SerialMsgHeader.toU8]

theorem checksum_append_last (buf : List Nat) (c : Nat) (hb : 1 ≤ buf.length) :
    checksum (buf ++ [c]) = checksum buf ^^^ c := by
  unfold checksum
  rw [List.drop_append_of_le_length hb, List.foldl_append]
  rfl

theorem parse_frame (t : SerialMsgType) (f : SerialMsgFunction)
    (payload : List Nat) (hlen : payload.length ≤ 250) :
    parse ((0x01 :: (payload.length + 3) :: t.toU8 :: f.toU8 :: payload) ++
      [checksum (0x01 :: (payload.length + 3) :: t.toU8 :: f.toU8 ::
        payload)]) = .ok (new t f payload) := by
  set buf := 0x01 :: (payload.length + 3) :: t.toU8 :: f.toU8 :: payload
    with hbuf
  set c := checksum buf with hc
  have hbl : buf.length = payload.length + 4 := by simp [hbuf]
  have hdl : (buf ++ [c]).length = payload.length + 5 := by simp [hbl]
  have h0 : (buf ++ [c]).getD 0 0 = 0x01 := by simp [hbuf]
  have h1 : (buf ++ [c]).getD 1 0 = payload.length + 3 := by simp [hbuf]
  have h2 : (buf ++ [c]).getD 2 0 = t.toU8 := by simp [hbuf]
  have h3 : (buf ++ [c]).getD 3 0 = f.toU8 := by simp [hbuf]
  have htake : (buf ++ [c]).take (payload.length + 4) = buf := by
    rw [← hbl]
    exact List.take_left buf [c]
  have hlast : (buf ++ [c]).getD (payload.length + 4) 0 = c := by
    rw [← hbl]
    simp [List.getD_eq_getElem?_getD,
      List.getElem?_append_right (le_refl buf.length)]
  have hdrop : ((buf ++ [c]).drop 4).take (payload.length) = payload := by
    have hd4 : (buf ++ [c]).drop 4 = payload ++ [c] := by
      rw [List.drop_append_of_le_length (by simp [hbl])]
      simp [hbuf]
    rw [hd4]
    exact List.take_left payload [c]
  unfold parse
  rw [hdl]
  simp only [h0, h1, h2, h3]
  rw [if_neg (by omega)]
  rw [show SerialMsgHeader.from_u8 0x01 = some .SOF from rfl]
  simp only [msg_type_from_u8_toU8, function_from_u8_toU8]
  rw [if_neg (by simp)]
  rw [if_neg (by omega)]
  rw [if_neg (by omega)]
  rw [show payload.length + 5 - 1 = payload.length + 4 from by omega]
  rw [htake, hlast]
  rw [if_neg (by simp)]
  by_cases hp : payload.length + 5 > 5
  · rw [if_pos hp]
    rw [show payload.length + 5 - 5 = payload.length from by omega]
    rw [hdrop]
  · rw [if_neg hp]
    have hnil : payload = [] := by
      cases payload with
      | nil => rfl
      | cons a l => simp at hp
    rw [hnil]

theorem parse_get_command (t : SerialMsgType) (f : SerialMsgFunction)
    (payload : List Nat) (hlen : payload.length ≤ 250) :
    parse ((new t f payload).get_command) = .ok (new t f payload) := by
  have hmod : (payload.length + 3) % 256 = payload.length + 3 :=
    Nat.mod_eq_of_lt (by omega)
  rw [get_command_new, hmod]
  exact parse_frame t f payload hlen

theorem checksum_get_command (t : SerialMsgType) (f : SerialMsgFunction)
    (payload : List Nat) :
    checksum ((new t f payload).get_command) = 0 := by
  rw [get_command_new]
  rw [checksum_append_last _ _ (by simp)]
  exact Nat.xor_self _

end SerialMsg

/-- C1: for every SOF frame built from a type in {Request, Response}, a
function opcode in the enumerated table, and a payload of at most 250 bytes,
decoding the bytes produced by encoding the frame (`SerialMsg::parse` of
`SerialMsg::get_command`) yields the same frame, and the XOR of the emitted
bytes from the length byte through the checksum byte, seeded with `0xFF`
(that is, `SerialMsg::checksum` of the emitted sequence), equals 0. -/
theorem C1_encode_decode_roundtrip (t : SerialMsgType) (f : SerialMsgFunction)
    (payload : List Nat) (hlen : payload.length ≤ 250) :
    SerialMsg.parse ((SerialMsg.new t f payload).get_command) =
      .ok (SerialMsg.new t f payload) ∧
    SerialMsg.checksum ((SerialMsg.new t f payload).get_command) = 0 :=
  ⟨SerialMsg.parse_get_command t f payload hlen,
   SerialMsg.checksum_get_command t f payload⟩

/-- Witness for C1 at the concrete frame Request/SendData with payload
`[0x03, 0x03, 0x20, 0x01, 0xFF]`. -/
theorem C1_encode_decode_roundtrip_witness :
    SerialMsg.parse ((SerialMsg.new .Request .SendData
        [0x03, 0x03, 0x20, 0x01, 0xFF]).get_command) =
      .ok (SerialMsg.new .Request .SendData [0x03, 0x03, 0x20, 0x01, 0xFF]) ∧
    SerialMsg.checksum ((SerialMsg.new .Request .SendData
        [0x03, 0x03, 0x20, 0x01, 0xFF]).get_command) = 0 :=
  C1_encode_decode_roundtrip .Request .SendData [0x03, 0x03, 0x20, 0x01, 0xFF]
    (by decide)

end Rzw


/-! ## Theorems: single-byte corruption of a frame -/

namespace Rzw

namespace SerialMsg

theorem foldl_xor_shift (l : List Nat) (a : Nat) :
    l.foldl (fun x b => x ^^^ b) a = a ^^^ l.foldl (fun x b => x ^^^ b) 0 := by
  induction l generalizing a with
  | nil => simp
  | cons c t ih =>
    simp only [List.foldl_cons, Nat.zero_xor]
    rw [ih (a ^^^ c), ih c, Nat.xor_assoc]

theorem foldl_xor_inj (l : List Nat) (a a' : Nat)
    (h : l.foldl (fun x b => x ^^^ b) a = l.foldl (fun x b => x ^^^ b) a') :
    a = a' := by
  rw [foldl_xor_shift l a, foldl_xor_shift l a'] at h
  have h2 := congrArg (fun z => z ^^^ l.foldl (fun x b => x ^^^ b) 0) h
  simpa [Nat.xor_assoc, Nat.xor_self, Nat.xor_zero] using h2

theorem checksum_set_ne (l : List Nat) (i v : Nat)
    (hi : 1 ≤ i) (hil : i < l.length) (hv : v ≠ l.getD i 0) :
    checksum (l.set i v) ≠ checksum l := by
  have key : ∀ w, checksum (l.take i ++ w :: l.drop (i + 1)) =
      (l.drop (i + 1)).foldl (fun x b => x ^^^ b)
        (((l.take i).drop 1).foldl (fun x b => x ^^^ b) 0xFF ^^^ w) := by
    intro w
    unfold checksum
    rw [List.drop_append_of_le_length (by rw [List.length_take]; omega),
      List.foldl_append]
    simp
  have hset : l.set i v = l.take i ++ v :: l.drop (i + 1) := by
    rw [List.set_eq_take_append_cons_drop, if_pos hil]
  have hdec : checksum l = (l.drop (i + 1)).foldl (fun x b => x ^^^ b)
      (((l.take i).drop 1).foldl (fun x b => x ^^^ b) 0xFF ^^^ l.get ⟨i, hil⟩) := by
    conv_lhs => rw [show l = l.take i ++ l.get ⟨i, hil⟩ :: l.drop (i + 1) from by
      rw [List.get_eq_getElem, List.getElem_cons_drop l i hil,
        List.take_append_drop]]
    exact key (l.get ⟨i, hil⟩)
  intro hcontra
  rw [hset, key v, hdec] at hcontra
  have h2 := foldl_xor_inj _ _ _ hcontra
  have hv2 : v = l.get ⟨i, hil⟩ := by
    have c1 := Nat.xor_cancel_left
      (((l.take i).drop 1).foldl (fun x b => x ^^^ b) 0xFF) v
    have c2 := Nat.xor_cancel_left
      (((l.take i).drop 1).foldl (fun x b => x ^^^ b) 0xFF) (l.get ⟨i, hil⟩)
    rw [← c1, h2, c2]
  exact hv (by rw [hv2, List.get_eq_getElem, List.getD_eq_getElem l 0 hil])

theorem getD_set_ne (l : List Nat) (i j v d : Nat) (h : i ≠ j) :
    (l.set i v).getD j d = l.getD j d := by
  simp [List.getD_eq_getElem?_getD, List.getElem?_set_ne h]

theorem getD_set_self (l : List Nat) (i v d : Nat) (h : i < l.length) :
    (l.set i v).getD i d = v := by
  simp [List.getD_eq_getElem?_getD, List.getElem?_set_self, h]

theorem parse_set_corrupt (t : SerialMsgType) (f : SerialMsgFunction)
    (payload : List Nat) (i v : Nat)
    (hlen : payload.length ≤ 250)
    (hi : i < (new t f payload).get_command.length)
    (hv : v ≠ (new t f payload).get_command.getD i 0)
    (hhdr : 1 ≤ i ∨ (v ≠ 0x06 ∧ v ≠ 0x15 ∧ v ≠ 0x18)) :
    parse ((new t f payload).get_command.set i v) = .error .UnknownZWave := by
  have hmod : (payload.length + 3) % 256 = payload.length + 3 :=
    Nat.mod_eq_of_lt (by omega)
  rw [get_command_new, hmod] at hi hv ⊢
  set buf := 0x01 :: (payload.length + 3) :: t.toU8 :: f.toU8 :: payload
    with hbuf
  set c := checksum buf with hc
  have hbl : buf.length = payload.length + 4 := by simp [hbuf]
  have hdl : (buf ++ [c]).length = payload.length + 5 := by simp [hbl]
  have hsl : ((buf ++ [c]).set i v).length = payload.length + 5 := by
    rw [List.length_set, hdl]
  have hil : i < payload.length + 5 := by rw [hdl] at hi; exact hi
  have hlast : (buf ++ [c]).getD (payload.length + 4) 0 = c := by
    rw [← hbl]
    simp [List.getD_eq_getElem?_getD,
      List.getElem?_append_right (le_refl buf.length)]
  rcases Nat.eq_zero_or_pos i with hi0 | hipos
  · -- the header byte is replaced by a byte that is no valid header
    subst hi0
    have hv1 : v ≠ 0x01 := by
      intro h1
      exact hv (by rw [h1]; simp [hbuf])
    obtain ⟨h6, h21, h24⟩ : v ≠ 0x06 ∧ v ≠ 0x15 ∧ v ≠ 0x18 := by
      rcases hhdr with h | h
      · omega
      · exact h
    unfold parse
    rw [if_neg (by rw [hsl]; omega)]
    rw [getD_set_self _ _ _ _ (by rw [hdl]; omega)]
    rw [show SerialMsgHeader.from_u8 v = none from by
      unfold SerialMsgHeader.from_u8
      rw [if_neg hv1, if_neg h6, if_neg h21, if_neg h24]]
  · -- a byte after the header is changed
    have hg0 : ((buf ++ [c]).set i v).getD 0 0 = 0x01 := by
      rw [getD_set_ne _ _ _ _ _ (by omega)]
      simp [hbuf]
    unfold parse
    rw [hsl]
    rw [if_neg (by omega)]
    rw [hg0]
    rw [show SerialMsgHeader.from_u8 0x01 = some .SOF from rfl]
    rw [if_neg (by simp)]
    rw [show payload.length + 5 - 2 = payload.length + 3 from by omega, hmod]
    rcases Nat.lt_or_ge i 2 with hi1 | hi2
    · -- the length byte is corrupted
      have hieq : i = 1 := by omega
      subst hieq
      rw [getD_set_self _ _ _ _ (by rw [hdl]; omega)]
      rw [if_pos (by
        intro hvv
        exact hv (by rw [hvv]; simp [hbuf]))]
      rfl
    · -- a byte covered by the checksum, or the checksum byte, is corrupted
      rw [getD_set_ne _ _ _ _ _ (by omega)]
      rw [show (buf ++ [c]).getD 1 0 = payload.length + 3 from by simp [hbuf]]
      rw [if_neg (by simp)]
      have htake : ((buf ++ [c]).set i v).take (payload.length + 5 - 1) =
          buf.set i v := by
        rw [show payload.length + 5 - 1 = payload.length + 4 from by omega]
        rw [← hbl, List.set_take, List.take_left]
      rcases Nat.lt_or_ge i (payload.length + 4) with hibuf | hicks
      · -- changed byte lies inside the checksummed region
        have hgl : ((buf ++ [c]).set i v).getD (payload.length + 5 - 1) 0 =
            c := by
          rw [show payload.length + 5 - 1 = payload.length + 4 from by omega]
          rw [getD_set_ne _ _ _ _ _ (by omega), hlast]
        rw [htake, hgl]
        rw [if_pos (by
          apply checksum_set_ne buf i v hipos (by omega)
          intro hvv
          apply hv
          rw [hvv]
          rw [List.getD_eq_getElem?_getD, List.getD_eq_getElem?_getD,
            List.getElem?_append_left (by omega)])]
        rfl
      · -- the checksum byte itself is corrupted
        have hieq : i = payload.length + 4 := by omega
        subst hieq
        have hgl : ((buf ++ [c]).set (payload.length + 4) v).getD
            (payload.length + 5 - 1) 0 = v := by
          rw [show payload.length + 5 - 1 = payload.length + 4 from by omega]
          rw [getD_set_self _ _ _ _ (by rw [hdl]; omega)]
        rw [htake, hgl]
        rw [List.set_eq_of_length_le (by omega)]
        rw [if_pos (by
          intro hvv
          apply hv
          rw [hlast, ← hvv, hc])]
        rfl

end SerialMsg

/-- C2 counterexample: the claim says that changing any single byte of a
valid encoded SOF frame — including the SOF header byte itself — makes
`SerialMsg::parse` fail with `UnknownZWave`.  But changing the header byte of
the valid frame `[01, 03, 00, 00, FC]` to `0x06` makes parse succeed with a
header-only ACK frame. -/
theorem C2_header_byte_change_accepted :
    SerialMsg.parse [0x01, 0x03, 0x00, 0x00, 0xFC] =
      .ok (SerialMsg.new .Request .None []) ∧
    (0x06 : Nat) ≠ [0x01, 0x03, 0x00, 0x00, 0xFC].getD 0 0 ∧
    SerialMsg.parse ([0x01, 0x03, 0x00, 0x00, 0xFC].set 0 0x06) =
      .ok (SerialMsg.new_header .ACK) := by
  refine ⟨by decide, by decide, by decide⟩

/-- C2 (amended): changing any single byte of a valid encoded SOF frame to a
different value makes `SerialMsg::parse` fail with `UnknownZWave`, except
when the changed byte is the header byte (index 0) and the new value is one
of the other valid headers ACK (`0x06`), NAK (`0x15`), CAN (`0x18`) — in
that case parse succeeds with a header-only frame instead. -/
theorem C2_byte_corruption_rejected (t : SerialMsgType)
    (f : SerialMsgFunction) (payload : List Nat) (i v : Nat)
    (hlen : payload.length ≤ 250)
    (hi : i < (SerialMsg.new t f payload).get_command.length)
    (hv : v ≠ (SerialMsg.new t f payload).get_command.getD i 0)
    (hhdr : 1 ≤ i ∨ (v ≠ 0x06 ∧ v ≠ 0x15 ∧ v ≠ 0x18)) :
    SerialMsg.parse ((SerialMsg.new t f payload).get_command.set i v) =
      .error .UnknownZWave :=
  SerialMsg.parse_set_corrupt t f payload i v hlen hi hv hhdr

/-- Witness for C2 (amended): corrupting the checksum byte of the encoded
Request/None frame with empty payload is rejected. -/
theorem C2_byte_corruption_rejected_witness :
    SerialMsg.parse ((SerialMsg.new .Request .None []).get_command.set 4 0) =
      .error .UnknownZWave :=
  C2_byte_corruption_rejected .Request .None [] 4 0 (by decide) (by decide)
    (by decide) (Or.inl (by decide))

end Rzw

/-! ## Theorems: the meter value decoder -/

namespace Rzw

theorem lor_eq_add (x y k : Nat) (hx : x % 2 ^ k = 0) (hy : y < 2 ^ k) :
    x ||| y = x + y := by
  have hxx : x = 2 ^ k * (x / 2 ^ k) := by
    conv_lhs => rw [← Nat.div_add_mod x (2 ^ k)]
    omega
  have h0 : ∀ j, (2 ^ k * (x / 2 ^ k)).testBit j =
      if j < k then false else (x / 2 ^ k).testBit (j - k) := by
    intro j
    have hpos : (0 : Nat) < 2 ^ k := Nat.pos_pow_of_pos _ (by norm_num)
    have h := Nat.testBit_mul_pow_two_add (x / 2 ^ k) hpos j
    simpa using h
  rw [hxx]
  apply Nat.eq_of_testBit_eq
  intro i
  rw [Nat.testBit_lor, Nat.testBit_mul_pow_two_add _ hy i, h0 i]
  by_cases h : i < k
  · simp [h]
  · have hbf : y.testBit i = false :=
      Nat.testBit_lt_two_pow
        (lt_of_lt_of_le hy (Nat.pow_le_pow_right (by norm_num)
          (Nat.le_of_not_lt h)))
    simp [h, hbf]

theorem asSigned_lt (w u : Nat) (hu : u < 2 ^ w) :
    asSigned w u = if u < 2 ^ (w - 1) then (u : Int) else (u : Int) - 2 ^ w := by
  unfold asSigned
  rw [Nat.mod_eq_of_lt hu]

theorem calc_value_eq_spec (bytes : List Nat) (p : Nat)
    (hlen : bytes.length = 1 ∨ bytes.length = 2 ∨ bytes.length = 4)
    (hb : ∀ b ∈ bytes, b < 256) :
    Meter.calc_value bytes p = meterValueSpec bytes p := by
  rcases bytes with _ | ⟨b0, _ | ⟨b1, _ | ⟨b2, _ | ⟨b3, _ | ⟨b4, rest⟩⟩⟩⟩⟩
  · simp at hlen
  · -- one byte
    have hb0 : b0 < 256 := hb b0 (by simp)
    simp only [Meter.calc_value, meterValueSpec, List.length_cons,
      List.length_nil, List.getD_cons_zero, List.foldl_cons, List.foldl_nil]
    rw [asSigned_lt 8 b0 (by omega)]
    norm_num
  · -- two bytes
    have hb0 : b0 < 256 := hb b0 (by simp)
    have hb1 : b1 < 256 := hb b1 (by simp)
    have hor : (b0 <<< 8) ||| b1 = b0 * 256 + b1 := by
      rw [Nat.shiftLeft_eq]
      rw [lor_eq_add (b0 * 2 ^ 8) b1 8 (Nat.mul_mod_left b0 (2 ^ 8))
        (by omega)]
      norm_num
    simp only [Meter.calc_value, meterValueSpec, List.length_cons,
      List.length_nil, List.getD_cons_zero, List.getD_cons_succ,
      List.foldl_cons, List.foldl_nil]
    rw [hor]
    rw [asSigned_lt 16 (b0 * 256 + b1) (by omega)]
    norm_num
  · simp at hlen
  · -- four bytes
    have hb0 : b0 < 256 := hb b0 (by simp)
    have hb1 : b1 < 256 := hb b1 (by simp)
    have hb2 : b2 < 256 := hb b2 (by simp)
    have hb3 : b3 < 256 := hb b3 (by simp)
    have h24 : b0 <<< 24 = b0 * 16777216 := by rw [Nat.shiftLeft_eq]
    have h16 : b1 <<< 16 = b1 * 65536 := by rw [Nat.shiftLeft_eq]
    have h8 : b2 <<< 8 = b2 * 256 := by rw [Nat.shiftLeft_eq]
    have e1 : (b0 <<< 24) ||| (b1 <<< 16) = b0 * 16777216 + b1 * 65536 := by
      rw [h24, h16]
      exact lor_eq_add (b0 * 16777216) (b1 * 65536) 24 (by omega) (by omega)
    have e2 : ((b0 <<< 24) ||| (b1 <<< 16)) ||| (b2 <<< 8) =
        b0 * 16777216 + b1 * 65536 + b2 * 256 := by
      rw [e1, h8]
      exact lor_eq_add (b0 * 16777216 + b1 * 65536) (b2 * 256) 16
        (by omega) (by omega)
    have e3 : ((b0 <<< 24) ||| (b1 <<< 16)) ||| (b2 <<< 8) ||| b3 =
        b0 * 16777216 + b1 * 65536 + b2 * 256 + b3 := by
      rw [e2]
      exact lor_eq_add (b0 * 16777216 + b1 * 65536 + b2 * 256) b3 8
        (by omega) (by omega)
    simp only [Meter.calc_value, meterValueSpec, List.length_cons,
      List.length_nil, List.getD_cons_zero, List.getD_cons_succ,
      List.foldl_cons, List.foldl_nil]
    rw [e3]
    rw [asSigned_lt 32 (b0 * 16777216 + b1 * 65536 + b2 * 256 + b3)
      (by omega)]
    rw [show ((0 * 256 + b0) * 256 + b1) * 256 + b2 =
      b0 * 65536 + b1 * 256 + b2 from by ring]
    rw [show (b0 * 65536 + b1 * 256 + b2) * 256 + b3 =
      b0 * 16777216 + b1 * 65536 + b2 * 256 + b3 from by ring]
    norm_num
  · simp at hlen

/-- C9: Meter::calc_value reads size bytes (size in {1, 2, 4}) big-endian as
a two's-complement signed integer and divides by `10^precision`; in
particular `[0x7F]` with precision 2 gives 1.27, `[0x80]` with precision 1
gives −12.8, `[0x7F,0xFF]` with precision 3 gives 32.767, `[0x80,0x00]` with
precision 2 gives −327.68, and `[0x7F,0xFF,0xFF,0xFF]` with precision 3
gives 2147483.647. -/
theorem C9_meter_value_decode :
    (∀ (bytes : List Nat) (p : Nat),
      (bytes.length = 1 ∨ bytes.length = 2 ∨ bytes.length = 4) →
      (∀ b ∈ bytes, b < 256) →
      Meter.calc_value bytes p = meterValueSpec bytes p) ∧
    Meter.calc_value [0x7F] 2 = 127 / 100 ∧
    Meter.calc_value [0x80] 1 = -128 / 10 ∧
    Meter.calc_value [0x7F, 0xFF] 3 = 32767 / 1000 ∧
    Meter.calc_value [0x80, 0x00] 2 = -32768 / 100 ∧
    Meter.calc_value [0x7F, 0xFF, 0xFF, 0xFF] 3 = 2147483647 / 1000 := by
  refine ⟨calc_value_eq_spec, ?_, ?_, ?_, ?_, ?_⟩
  · norm_num [Meter.calc_value, asSigned]
  · norm_num [Meter.calc_value, asSigned]
  · norm_num [Meter.calc_value, asSigned,
      show (127 <<< 8 ||| 255 : Nat) = 32767 from by rfl]
  · norm_num [Meter.calc_value, asSigned,
      show (128 <<< 8 : Nat) = 32768 from by rfl]
  · norm_num [Meter.calc_value, asSigned,
      show (127 <<< 24 ||| 255 <<< 16 ||| 255 <<< 8 ||| 255 : Nat) =
        2147483647 from by rfl]

/-- Witness for C9: the general decoder characterisation applied to the
single byte `[0x7F]` with precision 2. -/
theorem C9_meter_value_decode_witness :
    Meter.calc_value [0x7F] 2 = meterValueSpec [0x7F] 2 :=
  C9_meter_value_decode.1 [0x7F] 2 (Or.inl rfl) (by decide)

end Rzw

/-! ## Theorems: meter report with unsupported size field -/

namespace Rzw

set_option maxHeartbeats 1000000 in
theorem to_meter_data_value (x : ℚ) (typ : MeterType) (scale : Nat)
    (d : MeterData) (h : Meter.to_meter_data x typ scale = .ok d) :
    d.value = x := by
  unfold Meter.to_meter_data at h
  split_ifs at h <;> cases h <;> rfl

theorem report_unsupported_size (msg : List Nat) (typ : MeterType)
    (d : MeterData)
    (h3 : msg.getD 3 0 = 0x32) (h4 : msg.getD 4 0 = 0x02)
    (htyp : MeterType.from_u8 (msg.getD 5 0) = some typ)
    (hs1 : (Meter.get_precision_scale_size (msg.getD 6 0)).2.2 ≠ 0)
    (hs2 : (Meter.get_precision_scale_size (msg.getD 6 0)).2.2 ≠ 1)
    (hs3 : (Meter.get_precision_scale_size (msg.getD 6 0)).2.2 ≠ 2)
    (hs4 : (Meter.get_precision_scale_size (msg.getD 6 0)).2.2 ≠ 4)
    (hlen : msg.length =
      7 + (Meter.get_precision_scale_size (msg.getD 6 0)).2.2)
    (hknown : Meter.to_meter_data 0 typ
      (Meter.get_precision_scale_size (msg.getD 6 0)).2.1 = .ok d) :
    Meter.report msg = .ok d ∧ d.value = 0 := by
  have hsize8 : (Meter.get_precision_scale_size (msg.getD 6 0)).2.2 ≤ 7 :=
    Nat.and_le_right
  refine ⟨?_, to_meter_data_value 0 typ _ d hknown⟩
  have hvalue : Meter.calc_value
      ((msg.drop 7).take (Meter.get_precision_scale_size (msg.getD 6 0)).2.2)
      (Meter.get_precision_scale_size (msg.getD 6 0)).1 = 0 := by
    have hl : ((msg.drop 7).take
        (Meter.get_precision_scale_size (msg.getD 6 0)).2.2).length =
        (Meter.get_precision_scale_size (msg.getD 6 0)).2.2 := by
      rw [List.length_take, List.length_drop, hlen]
      omega
    unfold Meter.calc_value
    rw [if_neg (by rw [hl]; exact hs2), if_neg (by rw [hl]; exact hs3),
      if_neg (by rw [hl]; exact hs4)]
  unfold Meter.report
  rw [if_neg (by omega)]
  rw [if_neg (by push_neg; exact ⟨h3, h4⟩)]
  rw [htyp]
  simp only [hvalue, hknown, hlen]
  simp [hvalue, hknown]

/-- C10 counterexample: the claim quantifies over every size field other
than 1, 2 or 4; but for size field 0 — with total length 7 = 7 + 0,
meter type Electric and scale kWh, a known unit — Meter::report fails with
UnknownZWave (the length-8 minimum check) instead of returning Ok. -/
theorem C10_size_zero_report_fails :
    (Meter.get_precision_scale_size 0x00).2.2 = 0 ∧
    (0 : Nat) ≠ 1 ∧ (0 : Nat) ≠ 2 ∧ (0 : Nat) ≠ 4 ∧
    ([0, 0, 0, 0x32, 0x02, 0x01, 0x00] : List Nat).length =
      7 + (Meter.get_precision_scale_size 0x00).2.2 ∧
    Meter.to_meter_data 0 .Electric
      (Meter.get_precision_scale_size 0x00).2.1 = .ok (.Electric_kWh 0) ∧
    Meter.report [0, 0, 0, 0x32, 0x02, 0x01, 0x00] = .error .UnknownZWave := by
  refine ⟨rfl, by decide, by decide, by decide, rfl, rfl, rfl⟩

/-- C10 (amended): for every meter report payload whose size field (low 3
bits of byte 6) is a nonzero value other than 1, 2 or 4 (that is, 3, 5, 6 or
7), whose total length equals 7 + size, and whose meter type and scale map
to a known unit, Meter::report does not fail: it returns Ok with a reading
whose numeric value is 0.  (For size field 0 the payload has length 7 and
report instead fails the minimum-length check, see the counterexample.) -/
theorem C10_unsupported_size_reads_zero (msg : List Nat) (typ : MeterType)
    (d : MeterData)
    (h3 : msg.getD 3 0 = 0x32) (h4 : msg.getD 4 0 = 0x02)
    (htyp : MeterType.from_u8 (msg.getD 5 0) = some typ)
    (hs1 : (Meter.get_precision_scale_size (msg.getD 6 0)).2.2 ≠ 0)
    (hs2 : (Meter.get_precision_scale_size (msg.getD 6 0)).2.2 ≠ 1)
    (hs3 : (Meter.get_precision_scale_size (msg.getD 6 0)).2.2 ≠ 2)
    (hs4 : (Meter.get_precision_scale_size (msg.getD 6 0)).2.2 ≠ 4)
    (hlen : msg.length =
      7 + (Meter.get_precision_scale_size (msg.getD 6 0)).2.2)
    (hknown : Meter.to_meter_data 0 typ
      (Meter.get_precision_scale_size (msg.getD 6 0)).2.1 = .ok d) :
    Meter.report msg = .ok d ∧ d.value = 0 :=
  report_unsupported_size msg typ d h3 h4 htyp hs1 hs2 hs3 hs4 hlen hknown

/-- Witness for C10 (amended): a size-3 Electric kWh report with value bytes
`[9, 9, 9]` decodes to the reading 0. -/
theorem C10_unsupported_size_reads_zero_witness :
    Meter.report [0, 0, 0, 0x32, 0x02, 0x01, 0x03, 9, 9, 9] =
      .ok (.Electric_kWh 0) ∧ (MeterData.Electric_kWh 0).value = 0 :=
  C10_unsupported_size_reads_zero [0, 0, 0, 0x32, 0x02, 0x01, 0x03, 9, 9, 9]
    .Electric (.Electric_kWh 0) rfl rfl rfl (by decide) (by decide)
    (by decide) (by decide) rfl rfl

end Rzw

/-! ## Theorems: message-id allocator, drain panic, node-id bitmap -/

namespace Rzw

/-- C7: the message-id allocator (a u8 counter seeded at 0, incremented on
each allocation, skipping 0) never returns 0, and after returning 255 the
next allocation returns 1. -/
theorem C7_msg_id_allocator :
    (∀ s : DriverState, (SerialDriver.get_next_msg_id s).1 ≠ 0) ∧
    (∀ s : DriverState, (SerialDriver.get_next_msg_id s).1 = 255 →
      (SerialDriver.get_next_msg_id (SerialDriver.get_next_msg_id s).2).1 =
        1) := by
  have hval : ∀ s : DriverState, (SerialDriver.get_next_msg_id s).1 =
      if (s.message_id + 1) % 256 = 0 then 1
      else (s.message_id + 1) % 256 := by
    intro s
    simp [SerialDriver.get_next_msg_id]
    split
    · next h => rw [h]
    · rfl
  have hstate : ∀ s : DriverState,
      (SerialDriver.get_next_msg_id s).2.message_id =
        (SerialDriver.get_next_msg_id s).1 := by
    intro s
    simp [SerialDriver.get_next_msg_id]
  constructor
  · intro s
    rw [hval]
    split
    · omega
    · next h => exact h
  · intro s h
    rw [hval]
    rw [hstate, h]
    norm_num

/-- Witness for C7: starting from counter value 254, the allocator returns
255; the allocation after that returns 1, and no allocation returns 0. -/
theorem C7_msg_id_allocator_witness :
    (SerialDriver.get_next_msg_id ⟨254, [], [], []⟩).1 ≠ 0 ∧
    (SerialDriver.get_next_msg_id
      (SerialDriver.get_next_msg_id ⟨254, [], [], []⟩).2).1 = 1 :=
  ⟨C7_msg_id_allocator.1 ⟨254, [], [], []⟩,
   C7_msg_id_allocator.2 ⟨254, [], [], []⟩ (by decide)⟩

/-- C6: the claim says no driver operation panics for any byte sequence
delivered by the serial stream; but draining the well-formed frame
`01 03 00 13 EF` — a SOF Request SendData frame with empty payload, which
parses successfully — makes `read_all_msg` evaluate `m.data[1]` on an empty
vector, an out-of-bounds index, i.e. a panic. -/
theorem C6_drain_panics :
    SerialMsg.parse [0x01, 0x03, 0x00, 0x13, 0xEF] =
      .ok (SerialMsg.new .Request .SendData []) ∧
    (SerialDriver.read_all_msg
      { message_id := 0, messages := [],
        input := [some 0x01, some 0x03, some 0x00, some 0x13, some 0xEF],
        output := [] }).1 = .panicked := by
  refine ⟨by decide, by decide⟩

/-- C4: the claim says get_node_ids returns node id `((i−3)*8)+(j+1)` for
every bit position j with 0 ≤ j ≤ 7; but the source loops `for j in 0..7`,
which never inspects bit 7.  A valid 34-byte Response payload with
`payload[2] = 0x1D` and only bit 7 of byte 3 set (node id 8) yields the
empty node list instead of `[8]`; the claim's own example (bits 0..2 of
byte 3 giving `[1, 2, 3]`) does hold. -/
theorem C4_bit7_dropped :
    SerialDriver.get_bit_at 0x80 7 = true ∧
    (SerialDriver.get_node_ids
      { message_id := 0, messages := [],
        input := [none, none, none, some 0x06] ++
          ((SerialMsg.new .Response .DiscoveryNodes
            ([0, 0, 0x1D, 0x80] ++ List.replicate 30 0)).get_command.map
            some),
        output := [] }).1 = .ok [] ∧
    (SerialDriver.get_node_ids
      { message_id := 0, messages := [],
        input := [none, none, none, some 0x06] ++
          ((SerialMsg.new .Response .DiscoveryNodes
            ([0, 0, 0x1D, 0x07] ++ List.replicate 30 0)).get_command.map
            some),
        output := [] }).1 = .ok [1, 2, 3] := by
  refine ⟨by decide, by decide, by decide⟩

end Rzw


/-! ## Theorems: symbolic execution of the driver against scripted ports -/

namespace Rzw

/-- A SOF frame equals the frame rebuilt by `SerialMsg::new` from its fields. -/
theorem SerialMsg.eta_sof (m : SerialMsg) (h : m.header = .SOF) :
    SerialMsg.new m.typ m.func m.data = m := by
  cases m
  simp only [SerialMsg.new] at h ⊢
  simp_all

namespace SerialDriver

theorem readN_spec (bs : List Nat) (rest : List (Option Nat))
    (s : DriverState) (h : s.input = bs.map some ++ rest) :
    readN bs.length s = (some bs, { s with input := rest }) := by
  induction bs generalizing s with
  | nil =>
    simp only [List.map_nil, List.nil_append] at h
    simp [readN, ← h]
  | cons b bs ih =>
    simp only [List.map_cons, List.cons_append] at h
    have hread : portRead s = (some b, { s with input := bs.map some ++ rest }) := by
      simp [portRead, h]
    simp only [List.length_cons, readN, hread]
    rw [ih { s with input := bs.map some ++ rest } rfl]

theorem read_single_msg_timeout_none (s : DriverState)
    (rest : List (Option Nat)) (h : s.input = none :: rest) :
    read_single_msg s = (.err (.Io .TimedOut), { s with input := rest }) := by
  simp [read_single_msg, portRead, h]

theorem read_single_msg_timeout_nil (s : DriverState) (h : s.input = []) :
    read_single_msg s = (.err (.Io .TimedOut), s) := by
  simp [read_single_msg, portRead, h]

theorem read_single_msg_header_byte (s : DriverState) (h : SerialMsgHeader)
    (rest : List (Option Nat)) (hh : h ≠ .SOF)
    (hin : s.input = some h.toU8 :: rest) :
    read_single_msg s = (.ok (SerialMsg.new_header h), { s with input := rest }) := by
  have hread : portRead s = (some h.toU8, { s with input := rest }) := by
    simp [portRead, hin]
  cases h
  · exact absurd rfl hh
  · simp [read_single_msg, hread, SerialMsgHeader.toU8]
  · simp [read_single_msg, hread, SerialMsgHeader.toU8]
  · simp [read_single_msg, hread, SerialMsgHeader.toU8]

theorem read_single_msg_sof (s : DriverState) (m : SerialMsg)
    (rest : List (Option Nat)) (hm : m.header = .SOF)
    (hlen : m.data.length ≤ 250)
    (hin : s.input = m.get_command.map some ++ rest) :
    read_single_msg s =
      (.ok m, { s with input := rest, output := s.output ++ [0x06] }) := by
  have hcmd : m.get_command =
      (0x01 :: (m.data.length + 3) :: m.typ.toU8 :: m.func.toU8 :: m.data) ++
        [SerialMsg.checksum (0x01 :: (m.data.length + 3) :: m.typ.toU8 ::
          m.func.toU8 :: m.data)] := by
    conv_lhs => rw [← SerialMsg.eta_sof m hm]
    rw [SerialMsg.get_command_new]
    rw [Nat.mod_eq_of_lt (show m.data.length + 3 < 256 by omega)]
  set c := SerialMsg.checksum (0x01 :: (m.data.length + 3) :: m.typ.toU8 ::
    m.func.toU8 :: m.data) with hc
  set bs := m.typ.toU8 :: m.func.toU8 :: (m.data ++ [c]) with hbs
  have hin1 : s.input =
      some 0x01 :: some (m.data.length + 3) :: (bs.map some ++ rest) := by
    rw [hin, hcmd]
    simp [hbs]
  have hbsl : bs.length = m.data.length + 3 := by simp [hbs]
  have h1 : portRead s = (some 0x01,
      { s with input := some (m.data.length + 3) :: (bs.map some ++ rest) }) := by
    simp [portRead, hin1]
  have h2 : portRead
      { s with input := some (m.data.length + 3) :: (bs.map some ++ rest) } =
      (some (m.data.length + 3),
        { s with input := bs.map some ++ rest }) := by
    simp [portRead]
  have h3 : readN (m.data.length + 3) { s with input := bs.map some ++ rest } =
      (some bs, { s with input := rest }) := by
    rw [← hbsl]
    exact readN_spec bs rest _ rfl
  have hparse : SerialMsg.parse (0x01 :: (m.data.length + 3) :: bs) =
      .ok m := by
    have hl : (0x01 :: (m.data.length + 3) :: bs) =
        (0x01 :: (m.data.length + 3) :: m.typ.toU8 :: m.func.toU8 ::
          m.data) ++ [c] := by
      simp [hbs]
    rw [hl, hc]
    rw [SerialMsg.parse_frame m.typ m.func m.data hlen]
    rw [SerialMsg.eta_sof m hm]
  unfold read_single_msg
  rw [h1]
  simp [h2, h3, hparse, SerialMsgHeader.toU8, portWrite,
    show (SerialMsg.new_header SerialMsgHeader.ACK).get_command = [0x06]
      from rfl]

theorem rty_zero (s : DriverState) :
    read_single_msg_rty 0 s = (.err (.Io .TimedOut), s) := rfl

theorem rty_skip_timeout (n : Nat) (s s' : DriverState)
    (h : read_single_msg s = (.err (.Io .TimedOut), s')) :
    read_single_msg_rty (n + 1) s = read_single_msg_rty n s' := by
  simp [read_single_msg_rty, h]

theorem rty_ok_first (n : Nat) (s s' : DriverState) (m : SerialMsg)
    (h : read_single_msg s = (.ok m, s')) :
    read_single_msg_rty (n + 1) s = (.ok m, s') := by
  simp [read_single_msg_rty, h]

theorem rty_nil (n : Nat) (s : DriverState) (h : s.input = []) :
    read_single_msg_rty n s = (.err (.Io .TimedOut), s) := by
  induction n with
  | zero => rfl
  | succ k ih =>
    rw [rty_skip_timeout k s s (read_single_msg_timeout_nil s h)]
    exact ih

theorem rty3_three_timeouts (s : DriverState) (rest : List (Option Nat))
    (h : s.input = none :: none :: none :: rest) :
    read_single_msg_rty 3 s =
      (.err (.Io .TimedOut), { s with input := rest }) := by
  have e1 := read_single_msg_timeout_none s (none :: none :: rest) h
  rw [show (3 : Nat) = 2 + 1 from rfl, rty_skip_timeout _ _ _ e1]
  have e2 := read_single_msg_timeout_none
    { s with input := none :: none :: rest } (none :: rest) rfl
  rw [show (2 : Nat) = 1 + 1 from rfl, rty_skip_timeout _ _ _ e2]
  have e3 := read_single_msg_timeout_none
    { s with input := none :: rest } rest rfl
  rw [show (1 : Nat) = 0 + 1 from rfl, rty_skip_timeout _ _ _ e3]
  exact rty_zero _

theorem read_all_msg_drain3 (s : DriverState) (rest : List (Option Nat))
    (h : s.input = none :: none :: none :: rest) :
    read_all_msg s = (.ok (), { s with input := rest }) := by
  unfold read_all_msg
  rw [h]
  show read_all_msg_loop (rest.length + 3 + 1) s = _
  simp [read_all_msg_loop, rty3_three_timeouts s rest h]

theorem write_can_reply (k : Nat) (msgs : List SerialMsg) (out : List Nat)
    (msgbytes : List Nat) :
    (write ⟨k, msgs, [none, none, none, some 0x18], out⟩ msgbytes).1 =
      .err (.Io .InvalidData) ∧
    (write ⟨k, msgs, [none, none, none, some 0x18], out⟩ msgbytes).2.message_id =
      (get_next_msg_id ⟨k, msgs, [none, none, none, some 0x18], out⟩).1 := by
  constructor <;>
    simp [write, read_all_msg, read_all_msg_loop, read_single_msg_rty,
      read_single_msg, portRead, portWrite, readN, get_next_msg_id,
      SerialMsg.parse, SerialMsgHeader.from_u8, SerialMsgHeader.toU8,
      SerialMsg.new_header, SerialTransmissionType.toU8]

theorem get_command_header_only (m : SerialMsg) (h : m.header ≠ .SOF) :
    m.get_command = [m.header.toU8] := by
  simp [SerialMsg.get_command, h]

theorem read_single_msg_byte_fields (mid : Nat) (msgs : List SerialMsg)
    (out : List Nat) (rest : List (Option Nat)) (b : Nat)
    (h : SerialMsgHeader) (hb : b = h.toU8) (hh : h ≠ .SOF) :
    read_single_msg ⟨mid, msgs, some b :: rest, out⟩ =
      (.ok (SerialMsg.new_header h), ⟨mid, msgs, rest, out⟩) := by
  subst hb
  exact read_single_msg_header_byte _ h rest hh rfl

theorem read_single_msg_sof_fields (mid : Nat) (msgs : List SerialMsg)
    (out : List Nat) (m : SerialMsg) (rest : List (Option Nat))
    (hm : m.header = .SOF) (hlen : m.data.length ≤ 250) :
    read_single_msg ⟨mid, msgs, m.get_command.map some ++ rest, out⟩ =
      (.ok m, ⟨mid, msgs, rest, out ++ [0x06]⟩) :=
  read_single_msg_sof _ m rest hm hlen rfl

theorem rty10_byte (mid : Nat) (msgs : List SerialMsg) (out : List Nat)
    (rest : List (Option Nat)) (b : Nat) (h : SerialMsgHeader)
    (hb : b = h.toU8) (hh : h ≠ .SOF) :
    read_single_msg_rty 10 ⟨mid, msgs, some b :: rest, out⟩ =
      (.ok (SerialMsg.new_header h), ⟨mid, msgs, rest, out⟩) :=
  rty_ok_first 9 _ _ _ (read_single_msg_byte_fields mid msgs out rest b h hb hh)

theorem rty10_sof (mid : Nat) (msgs : List SerialMsg) (out : List Nat)
    (m : SerialMsg) (rest : List (Option Nat)) (hm : m.header = .SOF)
    (hlen : m.data.length ≤ 250) :
    read_single_msg_rty 10 ⟨mid, msgs, m.get_command.map some ++ rest, out⟩ =
      (.ok m, ⟨mid, msgs, rest, out ++ [0x06]⟩) :=
  rty_ok_first 9 _ _ _ (read_single_msg_sof_fields mid msgs out m rest hm hlen)

theorem rty10_sof_last (mid : Nat) (msgs : List SerialMsg) (out : List Nat)
    (m : SerialMsg) (hm : m.header = .SOF) (hlen : m.data.length ≤ 250) :
    read_single_msg_rty 10 ⟨mid, msgs, m.get_command.map some, out⟩ =
      (.ok m, ⟨mid, msgs, [], out ++ [0x06]⟩) := by
  have h := rty10_sof mid msgs out m [] hm hlen
  simpa using h

theorem write_two_replies (k : Nat) (msgs : List SerialMsg) (out : List Nat)
    (msgbytes : List Nat) (m1 m2 : SerialMsg)
    (h1 : m1.header = .SOF → m1.data.length ≤ 250)
    (h2 : m2.header = .SOF) (h2len : m2.data.length ≤ 250) :
    (write ⟨k, msgs, [none, none, none] ++
        (m1.get_command ++ m2.get_command).map some, out⟩ msgbytes).1 =
      if m1.header = .ACK ∧ m2.typ = .Response ∧ m2.func = .SendData ∧
          m2.data = [0x01]
      then .ok (get_next_msg_id ⟨k, msgs, [], out⟩).1
      else .err (.Io .InvalidData) := by
  have hdrain := read_all_msg_drain3
    ⟨k, msgs, [none, none, none] ++
      (m1.get_command ++ m2.get_command).map some, out⟩
    ((m1.get_command ++ m2.get_command).map some) rfl
  unfold write
  rw [hdrain]
  simp only [get_next_msg_id, portWrite, SerialTransmissionType.toU8,
    List.map_append]
  cases hm1 : m1.header with
  | SOF =>
    have Rs := fun mid ms o => rty10_sof mid ms o m1
      (List.map some m2.get_command) hm1 (h1 hm1)
    simp [Rs, hm1]
  | ACK =>
    rw [get_command_header_only m1 (by rw [hm1]; simp)]
    rw [hm1]
    simp only [SerialMsgHeader.toU8, List.map_cons, List.map_nil,
      List.cons_append, List.nil_append]
    have Rb := fun mid ms o rest => rty10_byte mid ms o rest 6 .ACK rfl
      (by decide)
    have Rs := fun mid ms o => rty10_sof_last mid ms o m2 h2 h2len
    by_cases hc : m2.typ = .Response ∧ m2.func = .SendData ∧ m2.data = [1]
    · simp [Rb, Rs, SerialMsg.new_header, h2, hc, get_next_msg_id]
    · push_neg at hc
      by_cases hty : m2.typ = .Response
      · by_cases hfn : m2.func = .SendData
        · simp [Rb, Rs, SerialMsg.new_header, h2, hty, hfn, hc hty hfn]
        · simp [Rb, Rs, SerialMsg.new_header, h2, hty, hfn]
      · simp [Rb, Rs, SerialMsg.new_header, h2, hty]
  | NAK =>
    rw [get_command_header_only m1 (by rw [hm1]; simp)]
    rw [hm1]
    simp only [SerialMsgHeader.toU8, List.map_cons, List.map_nil,
      List.cons_append, List.nil_append]
    have Rb := fun mid ms o rest => rty10_byte mid ms o rest 21 .NAK rfl
      (by decide)
    simp [Rb, SerialMsg.new_header]
  | CAN =>
    rw [get_command_header_only m1 (by rw [hm1]; simp)]
    rw [hm1]
    simp only [SerialMsgHeader.toU8, List.map_cons, List.map_nil,
      List.cons_append, List.nil_append]
    have Rb := fun mid ms o rest => rty10_byte mid ms o rest 24 .CAN rfl
      (by decide)
    simp [Rb, SerialMsg.new_header]

theorem rty3_sof_fields (mid : Nat) (msgs : List SerialMsg) (out : List Nat)
    (m : SerialMsg) (rest : List (Option Nat)) (hm : m.header = .SOF)
    (hlen : m.data.length ≤ 250) :
    read_single_msg_rty 3 ⟨mid, msgs, m.get_command.map some ++ rest, out⟩ =
      (.ok m, ⟨mid, msgs, rest, out ++ [0x06]⟩) :=
  rty_ok_first 2 _ _ _ (read_single_msg_sof_fields mid msgs out m rest hm hlen)

theorem drain_loop_step (k mid : Nat) (msgs : List SerialMsg) (out : List Nat)
    (f : SerialMsg) (rest : List (Option Nat))
    (hsof : f.header = .SOF) (hlen : f.data.length ≤ 250)
    (hnp : ¬ panicsOn f) :
    read_all_msg_loop (k + 1)
        ⟨mid, msgs, f.get_command.map some ++ rest, out⟩ =
      read_all_msg_loop k ⟨mid, msgs ++ (if keepFrame f then [f] else []),
        rest, out ++ [0x06]⟩ := by
  have R := rty3_sof_fields mid msgs out f rest hsof hlen
  by_cases h0 : f.header = .SOF ∧ f.typ = .Request ∧ f.func = .SendData
  · have hl1 : ¬ (f.data.length ≤ 1) := fun h =>
      hnp ⟨h0.1, h0.2.1, h0.2.2, Or.inl h⟩
    by_cases h1 : f.data.getD 1 0 = 0
    · have hl2 : ¬ (f.data.length ≤ 2) := fun h =>
        hnp ⟨h0.1, h0.2.1, h0.2.2, Or.inr ⟨h1, h⟩⟩
      by_cases h2v : f.data.getD 2 0 = 0
      · have hk : keepFrame f = false := by
          unfold keepFrame
          rw [if_pos ⟨h0.1, h0.2.1, h0.2.2, h1, h2v⟩]
        have h1' := h1
        have h2' := h2v
        simp only [List.getD_eq_getElem?_getD] at h1' h2'
        simp [read_all_msg_loop, R, h0, h1', h2', hl1, hl2, hk]
      · have hk : keepFrame f = true := by
          unfold keepFrame
          rw [if_neg (fun hcon => h2v hcon.2.2.2.2)]
          simp only [decide_eq_true_eq]
          exact ⟨hsof, by omega⟩
        have h1' := h1
        have h2' := h2v
        simp only [List.getD_eq_getElem?_getD] at h1' h2'
        simp [read_all_msg_loop, read_all_msg_loop.store, R, h0, h1', h2',
          hl1, hl2, hk, hsof, show 1 ≤ f.data.length from by omega]
    · have hk : keepFrame f = true := by
        unfold keepFrame
        rw [if_neg (fun hcon => h1 hcon.2.2.2.1)]
        simp only [decide_eq_true_eq]
        exact ⟨hsof, by omega⟩
      have h1' := h1
      simp only [List.getD_eq_getElem?_getD] at h1'
      simp [read_all_msg_loop, read_all_msg_loop.store, R, h0, h1', hl1, hk,
        hsof, show 1 ≤ f.data.length from by omega]
  · have hk : keepFrame f = decide (1 ≤ f.data.length) := by
      unfold keepFrame
      rw [if_neg (fun hcon => h0 ⟨hcon.1, hcon.2.1, hcon.2.2.1⟩)]
      simp [hsof]
    by_cases hd : 1 ≤ f.data.length
    · simp [read_all_msg_loop, read_all_msg_loop.store, R, h0, hk, hd, hsof]
      intro hty hfn
      exact absurd ⟨hsof, hty, hfn⟩ h0
    · simp [read_all_msg_loop, read_all_msg_loop.store, R, h0, hk, hd, hsof]
      intro hty hfn
      exact absurd ⟨hsof, hty, hfn⟩ h0

theorem get_command_length_pos (m : SerialMsg) : 1 ≤ m.get_command.length := by
  unfold SerialMsg.get_command
  split <;> simp

theorem drain_loop_frames (frames : List SerialMsg) :
    ∀ (fuel mid : Nat) (msgs : List SerialMsg) (out : List Nat),
    frames.length + 1 ≤ fuel →
    (∀ f ∈ frames, f.header = .SOF) →
    (∀ f ∈ frames, f.data.length ≤ 250) →
    (∀ f ∈ frames, ¬ panicsOn f) →
    ∃ out', read_all_msg_loop fuel
        ⟨mid, msgs, ((frames.map SerialMsg.get_command).flatten).map some, out⟩ =
      (.ok (), ⟨mid, msgs ++ frames.filter keepFrame, [], out'⟩) := by
  induction frames with
  | nil =>
    intro fuel mid msgs out hfuel _ _ _
    obtain ⟨k, rfl⟩ : ∃ k, fuel = k + 1 := ⟨fuel - 1, by omega⟩
    refine ⟨out, ?_⟩
    simp [read_all_msg_loop, rty_nil 3 ⟨mid, msgs, [], out⟩ rfl]
  | cons f fs ih =>
    intro fuel mid msgs out hfuel hsof hlen hnp
    obtain ⟨k, rfl⟩ : ∃ k, fuel = k + 1 := ⟨fuel - 1, by omega⟩
    have hjoin : ((((f :: fs).map SerialMsg.get_command).flatten).map some :
        List (Option Nat)) =
        f.get_command.map some ++
          ((fs.map SerialMsg.get_command).flatten).map some := by
      simp
    rw [hjoin]
    rw [drain_loop_step k mid msgs out f _ (hsof f (by simp))
      (hlen f (by simp)) (hnp f (by simp))]
    obtain ⟨out', hout⟩ := ih k mid
      (msgs ++ (if keepFrame f then [f] else [])) (out ++ [0x06])
      (by simp at hfuel ⊢; omega)
      (fun g hg => hsof g (by simp [hg]))
      (fun g hg => hlen g (by simp [hg]))
      (fun g hg => hnp g (by simp [hg]))
    refine ⟨out', ?_⟩
    rw [hout]
    by_cases hkf : keepFrame f <;> simp [hkf, List.filter_cons]

theorem join_length_ge (frames : List SerialMsg) :
    frames.length ≤ ((frames.map SerialMsg.get_command).flatten).length := by
  induction frames with
  | nil => simp
  | cons f fs ih =>
    have h := get_command_length_pos f
    simp only [List.map_cons, List.flatten_cons, List.length_append,
      List.length_cons]
    omega

theorem drain_queues (frames : List SerialMsg) (mid : Nat)
    (msgs : List SerialMsg) (out : List Nat)
    (hsof : ∀ f ∈ frames, f.header = .SOF)
    (hlen : ∀ f ∈ frames, f.data.length ≤ 250)
    (hnp : ∀ f ∈ frames, ¬ panicsOn f) :
    ∃ out', read_all_msg
        ⟨mid, msgs, ((frames.map SerialMsg.get_command).flatten).map some, out⟩ =
      (.ok (), ⟨mid, msgs ++ frames.filter keepFrame, [], out'⟩) := by
  unfold read_all_msg
  apply drain_loop_frames frames _ mid msgs out ?_ hsof hlen hnp
  have h := join_length_ge frames
  simp only [List.length_map]
  omega

end SerialDriver

/-- C3 counterexample: the claim says a CAN reply leaves the message-id
counter unchanged and the next successful write returns the id the failed
write would have used (here 1).  In fact the failed write advances the
counter to 1, and the next successful write (ACK then `01 04 01 13 01 E8`)
returns 2. -/
theorem C3_can_counter_advanced :
    (SerialDriver.get_next_msg_id ⟨0, [], [], []⟩).1 = 1 ∧
    (SerialDriver.write ⟨0, [], [none, none, none, some 0x18], []⟩
      [3, 3, 0x20, 1, 0xFF]).1 = .err (.Io .InvalidData) ∧
    (SerialDriver.write ⟨0, [], [none, none, none, some 0x18], []⟩
      [3, 3, 0x20, 1, 0xFF]).2.message_id = 1 ∧
    (SerialDriver.write
      { (SerialDriver.write ⟨0, [], [none, none, none, some 0x18], []⟩
          [3, 3, 0x20, 1, 0xFF]).2 with
        input := [none, none, none, some 0x06, some 0x01, some 0x04,
          some 0x01, some 0x13, some 0x01, some 0xE8] }
      [3, 3, 0x20, 1, 0xFF]).1 = .ok 2 := by
  refine ⟨by decide, by decide, by decide, by decide⟩

/-- C3 (amended): if, after write() sends its SendData frame, the dongle
replies with a CAN header instead of a header-only ACK, write() returns the
error Io(InvalidData) — but the message-id counter HAS been advanced by the
failed call (the id was allocated before the failure and is never rolled
back), so the next successful write returns the following id, not the id
this failed write would have used. -/
theorem C3_write_can_invalid_data (k : Nat) (msgs : List SerialMsg)
    (out : List Nat) (msgbytes : List Nat) :
    (SerialDriver.write ⟨k, msgs, [none, none, none, some 0x18], out⟩
      msgbytes).1 = .err (.Io .InvalidData) ∧
    (SerialDriver.write ⟨k, msgs, [none, none, none, some 0x18], out⟩
      msgbytes).2.message_id =
      (SerialDriver.get_next_msg_id
        ⟨k, msgs, [none, none, none, some 0x18], out⟩).1 :=
  SerialDriver.write_can_reply k msgs out msgbytes

/-- C8 counterexample: the claim says a write succeeds whenever the dongle
sends ACK and then a SOF Response SendData frame whose payload's FIRST BYTE
is 0x01.  The Response frame with payload `[0x01, 0x00]` has first byte
0x01, yet write returns Io(InvalidData): the code requires the payload to be
exactly `[0x01]`. -/
theorem C8_first_byte_not_enough :
    (SerialMsg.new .Response .SendData [0x01, 0x00]).data.getD 0 0 = 0x01 ∧
    (SerialDriver.write ⟨0, [],
      [none, none, none, some 0x06, some 0x01, some 0x05, some 0x01,
        some 0x13, some 0x01, some 0x00, some 0xE9], []⟩
      [3, 3, 0x20, 1, 0xFF]).1 = .err (.Io .InvalidData) ∧
    SerialMsg.parse [0x01, 0x05, 0x01, 0x13, 0x01, 0x00, 0xE9] =
      .ok (SerialMsg.new .Response .SendData [0x01, 0x00]) := by
  refine ⟨by decide, by decide, by decide⟩

/-- C8 (amended): after the drain times out, a write succeeds (returning the
freshly allocated message id) exactly when the dongle's first reply is a
header-only ACK and its second reply is a SOF Response frame with function
SendData (the written frame's function) and payload EXACTLY `[0x01]`; any
other first-reply header, or any Response not meeting this, surfaces as
Io(InvalidData). -/
theorem C8_write_success_iff (k : Nat) (msgs : List SerialMsg)
    (out : List Nat) (msgbytes : List Nat) (m1 m2 : SerialMsg)
    (h1 : m1.header = .SOF → m1.data.length ≤ 250)
    (h2 : m2.header = .SOF) (h2len : m2.data.length ≤ 250) :
    (SerialDriver.write ⟨k, msgs, [none, none, none] ++
        (m1.get_command ++ m2.get_command).map some, out⟩ msgbytes).1 =
      if m1.header = .ACK ∧ m2.typ = .Response ∧ m2.func = .SendData ∧
          m2.data = [0x01]
      then .ok (SerialDriver.get_next_msg_id ⟨k, msgs, [], out⟩).1
      else .err (.Io .InvalidData) :=
  SerialDriver.write_two_replies k msgs out msgbytes m1 m2 h1 h2 h2len

/-- Witness for C8 (amended): ACK then a Response SendData frame with
payload exactly `[0x01]` makes the first write succeed with message id 1. -/
theorem C8_write_success_iff_witness :
    (SerialDriver.write ⟨0, [], [none, none, none] ++
        (((SerialMsg.new_header .ACK).get_command ++
          (SerialMsg.new .Response .SendData [0x01]).get_command).map some),
        []⟩ [3, 3, 0x20, 1, 0xFF]).1 = .ok 1 := by
  have h := C8_write_success_iff 0 [] [] [3, 3, 0x20, 1, 0xFF]
    (SerialMsg.new_header .ACK) (SerialMsg.new .Response .SendData [0x01])
    (fun hx => absurd hx (by decide)) rfl (by decide)
  simpa [SerialDriver.get_next_msg_id, SerialMsg.new_header] using h

/-- C5 counterexample: the claim says every incoming frame that parses
successfully as a SOF Request frame is appended to the unsolicited queue.
The frame `01 03 00 00 FC` parses as a SOF Request (function None) with
empty payload, yet after draining it the queue is still empty: the code only
pushes frames with `data.len() >= 1`. -/
theorem C5_empty_request_dropped :
    SerialMsg.parse [0x01, 0x03, 0x00, 0x00, 0xFC] =
      .ok (SerialMsg.new .Request .None []) ∧
    SerialDriver.read_all_msg
      ⟨0, [], [some 0x01, some 0x03, some 0x00, some 0x00, some 0xFC], []⟩ =
      (.ok (), ⟨0, [], [], [0x06]⟩) := by
  refine ⟨by decide, by decide⟩

/-- C5 (amended): during a drain (read_all_msg) over a sequence of
well-formed incoming SOF frames (payloads of at most 250 bytes, none
triggering the data[1]/data[2] panic), exactly the frames with a nonempty
payload that are not Request SendData frames with payload bytes 1 and 2 both
zero are appended, in arrival order, to the unsolicited message queue; the
other frames are dropped. -/
theorem C5_drain_keeps_frames (frames : List SerialMsg) (mid : Nat)
    (msgs : List SerialMsg) (out : List Nat)
    (hsof : ∀ f ∈ frames, f.header = .SOF)
    (hlen : ∀ f ∈ frames, f.data.length ≤ 250)
    (hnp : ∀ f ∈ frames, ¬ panicsOn f) :
    ∃ out', SerialDriver.read_all_msg
        ⟨mid, msgs, ((frames.map SerialMsg.get_command).flatten).map some,
          out⟩ =
      (.ok (), ⟨mid, msgs ++ frames.filter keepFrame, [], out'⟩) :=
  SerialDriver.drain_queues frames mid msgs out hsof hlen hnp

/-- Witness for C5 (amended): draining one Request frame (function
ApplicationCommandHandler, payload `[0x07]`) appends exactly that frame. -/
theorem C5_drain_keeps_frames_witness :
    ∃ out', SerialDriver.read_all_msg
        ⟨7, [], ((([SerialMsg.new .Request .ApplicationCommandHandler
          [0x07]]).map SerialMsg.get_command).flatten).map some, []⟩ =
      (.ok (), ⟨7, [] ++ ([SerialMsg.new .Request .ApplicationCommandHandler
        [0x07]]).filter keepFrame, [], out'⟩) :=
  C5_drain_keeps_frames [SerialMsg.new .Request .ApplicationCommandHandler
    [0x07]] 7 [] [] (by decide) (by decide) (by decide)

end Rzw
